import Mathlib

/-!
Verification of the Neuro-Stream multimodal video RAG pipeline.

This file is a shallow embedding of the pipeline's core logic:

* `src/processor.py` — frame sampling (`extract_frames`) and audio
  transcription (`extract_audio_segments`);
* `src/embedding.py` — the batch embedding wrapper (`encode_images`,
  `encode_text`);
* `src/vector_store.py` — point construction and upsert policy
  (`index_video`) and the query path (`search`);
* `src/api.py` — the background ingestion task (`process_video_task`).

External collaborators (OpenCV decoding, Whisper, the CLIP model, the
Qdrant client) are modelled at their interface boundary: decoded frames,
raw transcription segments, the per-input embedding function, and the
outcome of each fallible call are parameters.  Machine floats are
modelled as rationals; Python `str.strip` is modelled character-wise;
Python exception control flow is modelled with `Except` and explicit
outcome branches that mirror the source's `try`/`except`/`finally`
structure.
-/

namespace NeuroStream

/-- An embedding vector: `sentence_transformers` output converted with
`.tolist()`.  The Python code tests vectors for truthiness (`if vector:`),
which for a list means non-emptiness. -/
abbrev Vec := List ℚ

/-- Characterwise trimming of leading and trailing whitespace, the list
form of Python `str.strip()`. -/
def stripChars (s : List Char) : List Char :=
  ((s.dropWhile Char.isWhitespace).reverse.dropWhile Char.isWhitespace).reverse

/-- Python `str.strip()` as used in `processor.py` line 132
(`segment["text"].strip()`). -/
def pyStrip (s : String) : String := String.mk (stripChars s.data)

/-- Python `int(x)` applied to a nonnegative-or-negative real: truncation
toward zero.  `processor.py` line 64 computes
`frame_interval = int(fps * interval)`. -/
def pyInt (q : ℚ) : ℤ := if 0 ≤ q then ⌊q⌋ else ⌈q⌉

/-! ## Media Extractor (`src/processor.py`) -/

/-- One emitted frame: the dict `{"image": ..., "timestamp": ...}` built at
`processor.py` lines 78-81.  The image is an opaque identifier. -/
structure Frame where
  image : ℕ
  timestamp : ℚ
deriving DecidableEq

/-- The `while True` read loop of `extract_frames` (`processor.py`
lines 67-83): `decoded` is the decoder's remaining frame stream, each frame
paired with the decoder position counter (`CAP_PROP_POS_MSEC`) observed when
it is read; `i` is `current_frame`.  A frame is emitted when
`current_frame % frame_interval == 0`, tagged with the position counter
divided by 1000. -/
def framesLoop (stride : ℤ) : List (ℕ × ℚ) → ℕ → List Frame
  | [], _ => []
  | (img, pos) :: rest, i =>
    if (i : ℤ) % stride = 0 then
      { image := img, timestamp := pos / 1000 } :: framesLoop stride rest (i + 1)
    else framesLoop stride rest (i + 1)

/-- `VideoProcessor.extract_frames` (`processor.py` lines 36-91) for an
existing, openable video.  If the decoder reports `fps == 0` the function
logs and returns `[]` (line 62).  Otherwise `frame_interval = int(fps *
interval)`; if that truncated stride is `0`, the first evaluation of
`current_frame % frame_interval` raises `ZeroDivisionError`, which the
`except` clause catches, so the function returns the frames accumulated so
far, namely `[]`.  Otherwise the read loop runs over all decodable
frames. -/
def extract_frames (fps : ℚ) (interval : ℕ) (decoded : List (ℕ × ℚ)) : List Frame :=
  if fps = 0 then []
  else if pyInt (fps * interval) = 0 then []
  else framesLoop (pyInt (fps * interval)) decoded 0

/-- Modelled from the spec, for comparison with `extract_frames`: the spec
(§4.1) states the stride is `round(frame_rate × interval)` rather than the
source's truncation `int(fps * interval)`. -/
def extract_frames_roundSpec (fps : ℚ) (interval : ℕ) (decoded : List (ℕ × ℚ)) : List Frame :=
  if fps = 0 then []
  else if round (fps * interval) = 0 then []
  else framesLoop (round (fps * interval)) decoded 0

/-- A raw segment as produced by the Whisper transcription call
(`result["segments"]`): start, end, text, untrimmed.  `end` is a Lean
keyword, so the field is named `stop`. -/
structure RawSeg where
  start : ℚ
  stop : ℚ
  text : String
deriving DecidableEq

/-- A segment dict appended to `segments_data` (`processor.py`
lines 129-133): start, end, and the stripped text. -/
structure Seg where
  start : ℚ
  stop : ℚ
  text : String
deriving DecidableEq

/-- The `for segment in result.get("segments", [])` loop (`processor.py`
lines 128-133): every raw segment is appended with its text stripped; no
segment is skipped. -/
def segmentsLoop : List RawSeg → List Seg
  | [] => []
  | s :: rest =>
    { start := s.start, stop := s.stop, text := pyStrip s.text } :: segmentsLoop rest

/-- The observable outcome of the external calls inside
`extract_audio_segments`'s `try` block: `VideoFileClip` may raise, the clip
may have no audio track, `write_audiofile` may raise, the Whisper
`transcribe` call may raise or return raw segments. -/
inductive AudioOutcome where
  | openFail
  | noAudio
  | writeFail
  | transcribeFail
  | transcribed (segs : List RawSeg)

/-- State tracked across `extract_audio_segments`: the `temp_audio_path`
variable (`none` models Python `None`) and whether the temporary audio file
currently exists on disk. -/
structure AudioState where
  tempPath : Option Unit
  fsTemp : Bool
deriving DecidableEq

/-- The `try` block of `extract_audio_segments` (`processor.py`
lines 110-134): the state after the block together with its result —
`Except.error` models an exception reaching the `except` clause.  In the
`noAudio` case the function returns `[]` before `tempfile.mkstemp`, so no
temporary file exists; in the `writeFail`, `transcribeFail` and
`transcribed` cases `mkstemp` has created the temporary file. -/
def audioTry : AudioOutcome → AudioState × Except Unit (List Seg)
  | .openFail => (⟨none, false⟩, .error ())
  | .noAudio => (⟨none, false⟩, .ok [])
  | .writeFail => (⟨some (), true⟩, .error ())
  | .transcribeFail => (⟨some (), true⟩, .error ())
  | .transcribed segs => (⟨some (), true⟩, .ok (segmentsLoop segs))

/-- The `finally` clause (`processor.py` lines 139-145): if
`temp_audio_path` is set and the file exists, remove it. -/
def audioFinally (st : AudioState) : AudioState :=
  match st.tempPath with
  | some _ => if st.fsTemp then { st with fsTemp := false } else st
  | none => st

/-- What `extract_audio_segments` leaves behind: the returned segment list
and whether the temporary audio artifact still exists after the call. -/
structure AudioResult where
  segments : List Seg
  tempPersists : Bool
deriving DecidableEq

/-- `VideoProcessor.extract_audio_segments` (`processor.py` lines 93-148)
for an existing video file: run the `try` block, catch any exception (the
`except` clause logs and falls through, returning the `segments_data`
accumulated so far, which is `[]` on every exception path), and run the
`finally` cleanup on every exit path. -/
def extract_audio_segments (o : AudioOutcome) : AudioResult :=
  let r := audioTry o
  let st := audioFinally r.1
  { segments := match r.2 with | .ok s => s | .error _ => []
    tempPersists := st.fsTemp }

/-! ## Embedding Engine (`src/embedding.py`) -/

/-- The value of one `encode_*` call: the returned vectors and whether
`self.model.encode` was invoked. -/
structure EncodeResult where
  vectors : List Vec
  modelInvoked : Bool
deriving DecidableEq

/-- `EmbeddingEngine.encode_images` (`embedding.py` lines 31-53).  The
underlying CLIP model is the per-input function `model` (the collaborator
contract: one vector per input, in order); `modelFails` is true when the
`self.model.encode` call raises, in which case the `except` clause logs and
returns `[]`.  An empty input returns `[]` at line 42 before the model is
touched. -/
def encode_images (model : ℕ → Vec) (modelFails : Bool) (images : List ℕ) : EncodeResult :=
  if images = [] then { vectors := [], modelInvoked := false }
  else if modelFails then { vectors := [], modelInvoked := true }
  else { vectors := images.map model, modelInvoked := true }

/-- `EmbeddingEngine.encode_text` (`embedding.py` lines 55-73), with the
same structure as `encode_images`. -/
def encode_text (model : String → Vec) (modelFails : Bool) (texts : List String) : EncodeResult :=
  if texts = [] then { vectors := [], modelInvoked := false }
  else if modelFails then { vectors := [], modelInvoked := true }
  else { vectors := texts.map model, modelInvoked := true }

/-! ## Vector Store (`src/vector_store.py`) -/

/-- A payload value: a string or a number (timestamps and segment bounds). -/
inductive PVal where
  | s (v : String)
  | q (v : ℚ)
deriving DecidableEq

/-- A Qdrant payload.  Python builds it as a dict literal
`{"video_id": ..., ..., **metadata}`; we model the dict as the list of
key/value bindings in source order, with lookup taking the LAST binding for
a key, which is Python's semantics for a dict literal with repeated keys. -/
abbrev Payload := List (String × PVal)

/-- `payload.get(k)` / `payload.get(k, None)`: the last binding of `k`, or
`none` when `k` is absent. -/
def pget (p : Payload) (k : String) : Option PVal :=
  match p.reverse.find? fun kv => kv.1 == k with
  | some kv => some kv.2
  | none => none

/-- A visual item handed to `index_video` (`api.py` lines 72-76): the dict
`{"vector": ..., "timestamp": ...}`. -/
structure VisualItem where
  vector : Vec
  timestamp : ℚ
deriving DecidableEq

/-- An audio item handed to `index_video` (`api.py` lines 83-89): the dict
`{"vector": ..., "start": ..., "end": ..., "text": ...}`. -/
structure AudioItem where
  vector : Vec
  start : ℚ
  stop : ℚ
  text : String
deriving DecidableEq

/-- A `PointStruct` as built by `index_video` (ids are fresh UUIDs, opaque
and never meaningful to callers, so they are not modelled). -/
structure Point where
  vector : Vec
  payload : Payload
deriving DecidableEq

/-- The payload of a visual point (`vector_store.py` lines 82-87).  Note
the source stores the modality tag under the key `"type"`; the spec calls
this field `modality`. -/
def visualPayload (video_id : String) (timestamp : ℚ) (metadata : Payload) : Payload :=
  [("video_id", .s video_id), ("type", .s "visual"), ("timestamp", .q timestamp)] ++ metadata

/-- The payload of an audio point (`vector_store.py` lines 99-108):
`start`, `end`, `text`, and `timestamp` set to the item's `start`. -/
def audioPayload (video_id : String) (item : AudioItem) (metadata : Payload) : Payload :=
  [("video_id", .s video_id), ("type", .s "audio"),
   ("start", .q item.start), ("end", .q item.stop), ("text", .s item.text),
   ("timestamp", .q item.start)] ++ metadata

/-- The point-construction loops of `index_video` (`vector_store.py`
lines 74-113): each item whose vector is truthy (a non-empty list) yields a
point; visual points first, audio points second. -/
def buildPoints (video_id : String) (visual : List VisualItem) (audio : List AudioItem)
    (metadata : Payload) : List Point :=
  (visual.filterMap fun item =>
    if item.vector = [] then none
    else some { vector := item.vector
                payload := visualPayload video_id item.timestamp metadata })
  ++ audio.filterMap fun item =>
    if item.vector = [] then none
    else some { vector := item.vector, payload := audioPayload video_id item metadata }

/-- Which log line `index_video` emits: `"Indexed {n} points"`,
`"Failed to upsert points"`, or `"No valid points to index."`. -/
inductive IndexLog where
  | indexed (n : ℕ)
  | upsertFailed
  | noPoints
deriving DecidableEq

/-- The observable effect of one `index_video` call: the argument of the
`client.upsert` call if one was made, and the log line emitted. -/
structure IndexResult where
  upsertCall : Option (List Point)
  log : IndexLog
deriving DecidableEq

/-- `VectorStore.index_video` (`vector_store.py` lines 64-125): build the
points; if any exist, call `upsert` (whose own failure is caught and
logged); otherwise log `"No valid points to index."` and return without
calling `upsert`. -/
def index_video (upsertFails : Bool) (video_id : String) (visual : List VisualItem)
    (audio : List AudioItem) (metadata : Payload) : IndexResult :=
  if buildPoints video_id visual audio metadata = [] then
    { upsertCall := none, log := .noPoints }
  else if upsertFails then
    { upsertCall := some (buildPoints video_id visual audio metadata), log := .upsertFailed }
  else
    { upsertCall := some (buildPoints video_id visual audio metadata)
      log := .indexed (buildPoints video_id visual audio metadata).length }

/-- A hit returned by `client.query_points`: a score and the stored
payload. -/
structure Hit where
  score : ℚ
  payload : Payload
deriving DecidableEq

/-- One result dict built by `search` (`vector_store.py` lines 159-165):
every field is read off the hit's payload with `.get`, so an absent key
yields `none` (Python `None`). -/
structure SearchRecord where
  score : ℚ
  timestamp : Option PVal
  video_id : Option PVal
  modalityTag : Option PVal
  text : Option PVal
deriving DecidableEq

/-- The result-formatting step of `search` (`vector_store.py`
lines 159-165).  The source reads the modality tag with
`hit.payload.get("type")` and the text with
`hit.payload.get("text", None)`. -/
def formatHit (hit : Hit) : SearchRecord :=
  { score := hit.score
    timestamp := pget hit.payload "timestamp"
    video_id := pget hit.payload "video_id"
    modalityTag := pget hit.payload "type"
    text := pget hit.payload "text" }

/-- The observable effect of one `search` call: the value returned or the
`ValueError` raised (`Except.error`), and whether the query text was
embedded / the index was queried before returning. -/
structure SearchCallResult where
  result : Except Unit (List SearchRecord)
  encodeCalled : Bool
  queryCalled : Bool

/-- `VectorStore.search` (`vector_store.py` lines 127-171).  `hasEngine` is
the truthiness of `self.embedding_engine` (the constructor default is
`None`, line 18); `tmodel`/`textFails` parameterize the engine's
`encode_text` call on the singleton query batch; `queryFails` is true when
`client.query_points` raises (the outer `except` then returns `[]`);
`hits` is the list the index returns when the query succeeds. -/
def search (hasEngine : Bool) (tmodel : String → Vec) (textFails : Bool)
    (queryFails : Bool) (hits : List Hit) (query_text : String) : SearchCallResult :=
  if hasEngine = false then
    { result := .error (), encodeCalled := false, queryCalled := false }
  else if (encode_text tmodel textFails [query_text]).vectors = [] then
    { result := .ok [], encodeCalled := true, queryCalled := false }
  else if queryFails then
    { result := .ok [], encodeCalled := true, queryCalled := true }
  else
    { result := .ok (hits.map formatHit), encodeCalled := true, queryCalled := true }

/-! ## Ingestion task (`src/api.py`) -/

/-- The loop at `api.py` lines 72-76: for each frame index `i`, read
`visual_embeddings[i]` — an `IndexError` (modelled by `Except.error`) when
the embedding list is shorter than the frame list, as happens when
`encode_images` returned `[]` for a non-empty batch. -/
def pairVisual : List Frame → List Vec → Except Unit (List VisualItem)
  | [], _ => .ok []
  | _ :: _, [] => .error ()
  | f :: fs, v :: vs => do
    let rest ← pairVisual fs vs
    .ok ({ vector := v, timestamp := f.timestamp } :: rest)

/-- The loop at `api.py` lines 83-89, reading `audio_embeddings[i]` for
each segment index `i`. -/
def pairAudio : List Seg → List Vec → Except Unit (List AudioItem)
  | [], _ => .ok []
  | _ :: _, [] => .error ()
  | s :: ss, v :: vs => do
    let rest ← pairAudio ss vs
    .ok ({ vector := v, start := s.start, stop := s.stop, text := s.text } :: rest)

/-- The observable effect of one `process_video_task` run: the `upsert`
call made (if any), the `index_video` log line (if reached), whether the
blanket `except` at `api.py` line 104 caught an exception, and whether the
uploaded file was removed. -/
structure TaskResult where
  upsertCall : Option (List Point)
  log : Option IndexLog
  taskError : Bool
  uploadRemoved : Bool
deriving DecidableEq

/-- `process_video_task` (`api.py` lines 52-105) after extraction: `frames`
and `audioSegs` are the extraction results; `imagesFail`/`textFails` say
whether the respective underlying embedding calls fail (making `encode_*`
return `[]`); the whole body runs inside one `try` whose `except` logs and
ends the task, and the uploaded file is removed only after `index_video`
returns. -/
def process_video_task (imodel : ℕ → Vec) (tmodel : String → Vec)
    (imagesFail textFails upsertFails : Bool) (video_id : String)
    (frames : List Frame) (audioSegs : List Seg) (filename : String) : TaskResult :=
  let visualRes : Except Unit (List VisualItem) :=
    if frames = [] then .ok []
    else pairVisual frames (encode_images imodel imagesFail (frames.map (·.image))).vectors
  match visualRes with
  | .error _ => { upsertCall := none, log := none, taskError := true, uploadRemoved := false }
  | .ok visualData =>
    let audioRes : Except Unit (List AudioItem) :=
      if audioSegs = [] then .ok []
      else pairAudio audioSegs (encode_text tmodel textFails (audioSegs.map (·.text))).vectors
    match audioRes with
    | .error _ => { upsertCall := none, log := none, taskError := true, uploadRemoved := false }
    | .ok audioData =>
      let r := index_video upsertFails video_id visualData audioData
        [("filename", .s filename)]
      { upsertCall := r.upsertCall, log := some r.log, taskError := false
        uploadRemoved := true }

/-- The payload keys written by `index_video` itself.  The video-level
`metadata` merged into each payload must not rebind these; the only caller
(`process_video_task`) passes `{"filename": ...}`. -/
def reservedKeys : List String :=
  ["video_id", "type", "timestamp", "start", "end", "text"]

/-! ## Helper lemmas -/

theorem framesLoop_eq (stride : ℤ) (l : List (ℕ × ℚ)) (i : ℕ) :
    framesLoop stride l i =
      ((List.enumFrom i l).filter fun p => ((p.1 : ℤ) % stride == 0)).map
        fun p => { image := p.2.1, timestamp := p.2.2 / 1000 } := by
  induction l generalizing i with
  | nil => simp [framesLoop]
  | cons hd tl ih =>
    obtain ⟨img, pos⟩ := hd
    simp only [framesLoop, List.enumFrom, List.filter, List.map]
    by_cases h : (i : ℤ) % stride = 0
    · have hb : ((i : ℤ) % stride == 0) = true := beq_iff_eq.mpr h
      simp [h, hb, ih]
    · have hb : ((i : ℤ) % stride == 0) = false := by simpa using h
      simp [h, hb, ih]

theorem segmentsLoop_eq_map (segs : List RawSeg) :
    segmentsLoop segs
      = segs.map fun s => { start := s.start, stop := s.stop, text := pyStrip s.text } := by
  induction segs with
  | nil => rfl
  | cons h t ih => simp [segmentsLoop, ih]

theorem pget_append_of_absent (l m : Payload) (k : String)
    (h : ∀ kv ∈ m, kv.1 ≠ k) : pget (l ++ m) k = pget l k := by
  unfold pget
  rw [List.reverse_append, List.find?_append]
  have hm : m.reverse.find? (fun kv => kv.1 == k) = none := by
    rw [List.find?_eq_none]
    intro x hx
    simpa using h x (List.mem_reverse.mp hx)
  rw [hm, Option.none_or]

theorem not_reserved_ne {m : Payload} (hm : ∀ kv ∈ m, kv.1 ∉ reservedKeys)
    (k : String) (hk : k ∈ reservedKeys) : ∀ kv ∈ m, kv.1 ≠ k :=
  fun kv hkv he => hm kv hkv (he ▸ hk)

theorem mem_buildPoints {video_id : String} {vis : List VisualItem} {aud : List AudioItem}
    {m : Payload} {pt : Point} :
    pt ∈ buildPoints video_id vis aud m ↔
      (∃ v ∈ vis, v.vector ≠ [] ∧
        pt = { vector := v.vector, payload := visualPayload video_id v.timestamp m }) ∨
      (∃ a ∈ aud, a.vector ≠ [] ∧
        pt = { vector := a.vector, payload := audioPayload video_id a m }) := by
  simp only [buildPoints, List.mem_append, List.mem_filterMap]
  constructor
  · rintro (⟨v, hv, hf⟩ | ⟨a, ha, hf⟩)
    · refine Or.inl ⟨v, hv, ?_⟩
      by_cases hvec : v.vector = []
      · rw [if_pos hvec] at hf; exact absurd hf (by simp)
      · rw [if_neg hvec] at hf
        exact ⟨hvec, (Option.some_inj.mp hf).symm⟩
    · refine Or.inr ⟨a, ha, ?_⟩
      by_cases hvec : a.vector = []
      · rw [if_pos hvec] at hf; exact absurd hf (by simp)
      · rw [if_neg hvec] at hf
        exact ⟨hvec, (Option.some_inj.mp hf).symm⟩
  · rintro (⟨v, hv, hvec, hpt⟩ | ⟨a, ha, hvec, hpt⟩)
    · exact Or.inl ⟨v, hv, by rw [if_neg hvec, hpt]⟩
    · exact Or.inr ⟨a, ha, by rw [if_neg hvec, hpt]⟩

theorem pget_visualPayload (vid : String) (t : ℚ) (m : Payload)
    (hm : ∀ kv ∈ m, kv.1 ∉ reservedKeys) (k : String) (hk : k ∈ reservedKeys) :
    pget (visualPayload vid t m) k
      = pget [("video_id", .s vid), ("type", .s "visual"), ("timestamp", .q t)] k :=
  pget_append_of_absent _ m k (not_reserved_ne hm k hk)

theorem pget_audioPayload (vid : String) (a : AudioItem) (m : Payload)
    (hm : ∀ kv ∈ m, kv.1 ∉ reservedKeys) (k : String) (hk : k ∈ reservedKeys) :
    pget (audioPayload vid a m) k
      = pget [("video_id", .s vid), ("type", .s "audio"),
          ("start", .q a.start), ("end", .q a.stop), ("text", .s a.text),
          ("timestamp", .q a.start)] k :=
  pget_append_of_absent _ m k (not_reserved_ne hm k hk)

theorem index_video_upsertCall (u : Bool) (vid : String) (vis : List VisualItem)
    (aud : List AudioItem) (m : Payload) :
    (index_video u vid vis aud m).upsertCall
      = if buildPoints vid vis aud m = [] then none
        else some (buildPoints vid vis aud m) := by
  unfold index_video
  by_cases hb : buildPoints vid vis aud m = []
  · simp [hb]
  · cases u <;> simp [hb]

/-! ## Claims -/

/-- C1: the claim states that when an embedding call fails (returns an
empty sequence for a non-empty input), the affected items are skipped and
the ingestion still upserts the other modality's points.  The code does
not do this: `process_video_task` reads `visual_embeddings[i]` for every
frame, so an empty embedding return raises `IndexError`, which the blanket
`except` at `api.py` line 104 catches, ending the task before
`index_video` is ever called — the audio modality is not upserted (and the
uploaded file is not removed).  This theorem evaluates the task at the
failing input: one frame whose image embedding call fails, one transcribed
segment whose text embedding works; the first conjunct shows nothing is
upserted and the task records the exception; the second shows the same
input with a healthy image embedding does upsert both modalities. -/
theorem process_video_embed_fail_aborts :
    (process_video_task (fun _ => [1]) (fun _ => [1]) true false false "v"
        [{ image := 0, timestamp := 0 }] [{ start := 0, stop := 1, text := "hi" }] "a.mp4"
      = { upsertCall := none, log := none, taskError := true, uploadRemoved := false }) ∧
    (process_video_task (fun _ => [1]) (fun _ => [1]) false false false "v"
        [{ image := 0, timestamp := 0 }] [{ start := 0, stop := 1, text := "hi" }] "a.mp4").upsertCall
      = some (buildPoints "v" [{ vector := [1], timestamp := 0 }]
          [{ vector := [1], start := 0, stop := 1, text := "hi" }]
          [("filename", .s "a.mp4")]) :=
  ⟨rfl, rfl⟩

/-- C2 counterexample: the claim states segments whose trimmed text is
empty are dropped.  They are not: `extract_audio_segments` appends every
raw segment with its text stripped (`processor.py` lines 128-133) and has
no emptiness check, so a whitespace-only segment is emitted with empty
text. -/
theorem extract_audio_keeps_empty_segment :
    ((extract_audio_segments (.transcribed [{ start := 0, stop := 1, text := "   " }])).segments
      = [{ start := 0, stop := 1, text := "" }]) ∧
    ¬ (∀ s ∈ (extract_audio_segments
          (.transcribed [{ start := 0, stop := 1, text := "   " }])).segments,
        s.text ≠ "") := by
  constructor
  · decide
  · decide

/-- C2 (amended): for every sequence of raw transcription segments, the
audio extraction output contains exactly one segment per raw segment, in
order, with its text trimmed of surrounding whitespace; no segment is
dropped, so a segment whose trimmed text is empty is emitted with empty
text. -/
theorem extract_audio_trims_each (segs : List RawSeg) :
    (extract_audio_segments (.transcribed segs)).segments
      = segs.map fun s => { start := s.start, stop := s.stop, text := pyStrip s.text } :=
  segmentsLoop_eq_map segs

/-- A 60-frame synthetic decode stream for the C3 counterexample. -/
def truncDecoded : List (ℕ × ℚ) := (List.range 60).map fun i => (i, 0)

/-- C3 counterexample: the claim states the stride is round(F × I); the
source computes `int(fps * interval)`, truncation.  At the NTSC frame rate
F = 29.97 with I = 2 the source stride is int(59.94) = 59 while
round(59.94) = 60; on a 60-frame stream the code emits frames 0 and 59
(two frames) while the spec stride would emit frame 0 only. -/
theorem extract_frames_stride_not_round :
    extract_frames (2997/100) 2 truncDecoded
      ≠ extract_frames_roundSpec (2997/100) 2 truncDecoded := by
  have h1 : pyInt ((2997 : ℚ)/100 * ((2 : ℕ) : ℚ)) = 59 := by norm_num [pyInt]
  have h2 : round ((2997 : ℚ)/100 * ((2 : ℕ) : ℚ)) = 60 := by rw [round_eq]; norm_num
  have e1 : extract_frames (2997/100) 2 truncDecoded = framesLoop 59 truncDecoded 0 := by
    unfold extract_frames
    rw [h1, if_neg (by norm_num : ¬((2997 : ℚ)/100 = 0)), if_neg (by norm_num : ¬((59 : ℤ) = 0))]
  have e2 : extract_frames_roundSpec (2997/100) 2 truncDecoded = framesLoop 60 truncDecoded 0 := by
    unfold extract_frames_roundSpec
    rw [h2, if_neg (by norm_num : ¬((2997 : ℚ)/100 = 0)), if_neg (by norm_num : ¬((60 : ℤ) = 0))]
  have l1 : (framesLoop 59 truncDecoded 0).length = 2 := by decide
  have l2 : (framesLoop 60 truncDecoded 0).length = 1 := by decide
  intro h
  rw [e1, e2] at h
  have hl := congrArg List.length h
  rw [l1, l2] at hl
  exact absurd hl (by decide)

/-- C3 (amended): for every video with a determinable (non-zero) frame
rate F and sampling interval I, frame extraction computes a stride equal to
the truncation int(F × I) (not round), and — when that stride is non-zero —
emits exactly the decoded frames whose index is a multiple of the stride,
each tagged with the decoder's position counter divided by 1000. -/
theorem extract_frames_trunc_stride (fps : ℚ) (interval : ℕ) (decoded : List (ℕ × ℚ))
    (h0 : fps ≠ 0) (hs : pyInt (fps * interval) ≠ 0) :
    extract_frames fps interval decoded =
      ((decoded.enum.filter fun p => ((p.1 : ℤ) % pyInt (fps * interval) == 0)).map
        fun p => { image := p.2.1, timestamp := p.2.2 / 1000 }) := by
  unfold extract_frames
  rw [if_neg h0, if_neg hs, framesLoop_eq, ← List.enum_eq_enumFrom]

/-- C3 witness: at fps = 30, interval = 2 and a single decoded frame at
position counter 0, the hypotheses of `extract_frames_trunc_stride` hold
and the frame at index 0 is emitted with timestamp 0/1000. -/
theorem extract_frames_trunc_stride_witness :
    ((30 : ℚ) ≠ 0 ∧ pyInt ((30 : ℚ) * ((2 : ℕ) : ℚ)) ≠ 0) ∧
    extract_frames 30 2 [(7, 0)] = [{ image := 7, timestamp := (0 : ℚ) / 1000 }] := by
  have h1 : pyInt ((30 : ℚ) * ((2 : ℕ) : ℚ)) = 60 := by norm_num [pyInt]
  refine ⟨⟨by norm_num, by rw [h1]; norm_num⟩, ?_⟩
  rw [extract_frames_trunc_stride 30 2 [(7, 0)] (by norm_num) (by rw [h1]; norm_num)]
  simp only [h1]
  rfl

/-- C4: every point handed to `upsert` by `index_video` carries the
required payload keys `video_id`, the modality tag (stored under the
source's key `"type"`, the spec's `modality` field) with value `visual` or
`audio`, and `timestamp`; every audio point additionally carries `start`,
`end` and `text`, with `timestamp` bound to the same value as `start`; and
no visual point's payload carries a `text` key.  The hypothesis `hm` says
the video-level metadata does not rebind the reserved keys, which holds at
the only call site (`metadata = {"filename": ...}`). -/
theorem index_video_payload_keys (u : Bool) (vid : String) (vis : List VisualItem)
    (aud : List AudioItem) (m : Payload) (pts : List Point)
    (hm : ∀ kv ∈ m, kv.1 ∉ reservedKeys)
    (hup : (index_video u vid vis aud m).upsertCall = some pts) :
    ∀ pt ∈ pts,
      pget pt.payload "video_id" = some (.s vid) ∧
      (pget pt.payload "type" = some (.s "visual") ∨
        pget pt.payload "type" = some (.s "audio")) ∧
      (pget pt.payload "timestamp").isSome ∧
      (pget pt.payload "type" = some (.s "audio") →
        (pget pt.payload "start").isSome ∧ (pget pt.payload "end").isSome ∧
        (pget pt.payload "text").isSome ∧
        pget pt.payload "timestamp" = pget pt.payload "start") ∧
      (pget pt.payload "type" = some (.s "visual") → pget pt.payload "text" = none) := by
  rw [index_video_upsertCall] at hup
  by_cases hb : buildPoints vid vis aud m = []
  · rw [if_pos hb] at hup
    exact absurd hup (by simp)
  · rw [if_neg hb] at hup
    obtain rfl : buildPoints vid vis aud m = pts := Option.some_inj.mp hup
    intro pt hpt
    rcases mem_buildPoints.mp hpt with ⟨v, _, _, rfl⟩ | ⟨a, _, _, rfl⟩
    · dsimp only
      have h1 : pget (visualPayload vid v.timestamp m) "video_id" = some (.s vid) :=
        (pget_visualPayload vid v.timestamp m hm "video_id" (by decide)).trans rfl
      have h2 : pget (visualPayload vid v.timestamp m) "type" = some (.s "visual") :=
        (pget_visualPayload vid v.timestamp m hm "type" (by decide)).trans rfl
      have h3 : pget (visualPayload vid v.timestamp m) "timestamp" = some (.q v.timestamp) :=
        (pget_visualPayload vid v.timestamp m hm "timestamp" (by decide)).trans rfl
      have h4 : pget (visualPayload vid v.timestamp m) "text" = none :=
        (pget_visualPayload vid v.timestamp m hm "text" (by decide)).trans rfl
      exact ⟨h1, Or.inl h2, by rw [h3]; rfl,
        fun hcon => absurd (h2.symm.trans hcon) (by decide), fun _ => h4⟩
    · dsimp only
      have g1 : pget (audioPayload vid a m) "video_id" = some (.s vid) :=
        (pget_audioPayload vid a m hm "video_id" (by decide)).trans rfl
      have g2 : pget (audioPayload vid a m) "type" = some (.s "audio") :=
        (pget_audioPayload vid a m hm "type" (by decide)).trans rfl
      have g3 : pget (audioPayload vid a m) "start" = some (.q a.start) :=
        (pget_audioPayload vid a m hm "start" (by decide)).trans rfl
      have g4 : pget (audioPayload vid a m) "end" = some (.q a.stop) :=
        (pget_audioPayload vid a m hm "end" (by decide)).trans rfl
      have g5 : pget (audioPayload vid a m) "text" = some (.s a.text) :=
        (pget_audioPayload vid a m hm "text" (by decide)).trans rfl
      have g6 : pget (audioPayload vid a m) "timestamp" = some (.q a.start) :=
        (pget_audioPayload vid a m hm "timestamp" (by decide)).trans rfl
      exact ⟨g1, Or.inr g2, by rw [g6]; rfl,
        fun _ => ⟨by rw [g3]; rfl, by rw [g4]; rfl, by rw [g5]; rfl, g6.trans g3.symm⟩,
        fun hcon => absurd (g2.symm.trans hcon) (by decide)⟩

/-- Concrete inputs shared by the C4 and C5 witnesses: one visual item, one
audio item, and the metadata shape of the only call site. -/
def wVis : List VisualItem := [{ vector := [1], timestamp := 2 }]

def wAudItem : AudioItem := { vector := [1], start := 3, stop := 4, text := "hi" }

def wAud : List AudioItem := [wAudItem]

def wMeta : Payload := [("filename", .s "x.mp4")]

/-- C4 witness: the payload-key invariants instantiated at one visual and
one audio point with the call site's metadata. -/
theorem index_video_payload_keys_witness :
    (∀ kv ∈ wMeta, kv.1 ∉ reservedKeys) ∧
    ((index_video false "v" wVis wAud wMeta).upsertCall
      = some (buildPoints "v" wVis wAud wMeta)) ∧
    ∀ pt ∈ buildPoints "v" wVis wAud wMeta,
      pget pt.payload "video_id" = some (.s "v") ∧
      (pget pt.payload "type" = some (.s "visual") ∨
        pget pt.payload "type" = some (.s "audio")) ∧
      (pget pt.payload "timestamp").isSome ∧
      (pget pt.payload "type" = some (.s "audio") →
        (pget pt.payload "start").isSome ∧ (pget pt.payload "end").isSome ∧
        (pget pt.payload "text").isSome ∧
        pget pt.payload "timestamp" = pget pt.payload "start") ∧
      (pget pt.payload "type" = some (.s "visual") → pget pt.payload "text" = none) :=
  ⟨by decide, by decide,
    index_video_payload_keys false "v" wVis wAud wMeta
      (buildPoints "v" wVis wAud wMeta) (by decide) (by decide)⟩

/-- C5: for every search result produced from a matched point that
`index_video` constructed, the result's `text` field is the payload's
`text` lookup; a visual point yields `text = none` (never the empty
string, since `none ≠ some v` for every string value), and an audio point
yields exactly the segment text stored in its payload. -/
theorem search_text_presence (vid : String) (vis : List VisualItem) (aud : List AudioItem)
    (m : Payload) (score : ℚ) (pt : Point) (tmodel : String → Vec) (query_text : String)
    (hm : ∀ kv ∈ m, kv.1 ∉ reservedKeys)
    (hpt : pt ∈ buildPoints vid vis aud m) :
    ∃ r, (search true tmodel false false [{ score := score, payload := pt.payload }]
        query_text).result = .ok [r] ∧
      r.text = pget pt.payload "text" ∧
      (pget pt.payload "type" = some (.s "visual") → r.text = none) ∧
      (pget pt.payload "type" = some (.s "audio") →
        ∃ a ∈ aud, a.vector ≠ [] ∧ r.text = some (.s a.text)) := by
  rcases mem_buildPoints.mp hpt with ⟨v, _, _, rfl⟩ | ⟨a, ha, hvec, rfl⟩
  · dsimp only
    have h2 : pget (visualPayload vid v.timestamp m) "type" = some (.s "visual") :=
      (pget_visualPayload vid v.timestamp m hm "type" (by decide)).trans rfl
    have h4 : pget (visualPayload vid v.timestamp m) "text" = none :=
      (pget_visualPayload vid v.timestamp m hm "text" (by decide)).trans rfl
    exact ⟨formatHit { score := score, payload := visualPayload vid v.timestamp m },
      rfl, rfl, fun _ => h4, fun hcon => absurd (h2.symm.trans hcon) (by decide)⟩
  · dsimp only
    have g2 : pget (audioPayload vid a m) "type" = some (.s "audio") :=
      (pget_audioPayload vid a m hm "type" (by decide)).trans rfl
    have g5 : pget (audioPayload vid a m) "text" = some (.s a.text) :=
      (pget_audioPayload vid a m hm "text" (by decide)).trans rfl
    exact ⟨formatHit { score := score, payload := audioPayload vid a m },
      rfl, rfl, fun hcon => absurd (g2.symm.trans hcon) (by decide),
      fun _ => ⟨a, ha, hvec, g5⟩⟩

/-- The audio point used by the C5 witness. -/
def wPt : Point := { vector := [1], payload := audioPayload "v" wAudItem wMeta }

/-- C5 witness: the text-presence property instantiated at the concrete
audio point built from `wAudItem`. -/
theorem search_text_presence_witness :
    ((∀ kv ∈ wMeta, kv.1 ∉ reservedKeys) ∧ wPt ∈ buildPoints "v" wVis wAud wMeta) ∧
    ∃ r, (search true (fun _ => [1]) false false [{ score := 1, payload := wPt.payload }]
        "q").result = .ok [r] ∧
      r.text = pget wPt.payload "text" ∧
      (pget wPt.payload "type" = some (.s "visual") → r.text = none) ∧
      (pget wPt.payload "type" = some (.s "audio") →
        ∃ a ∈ wAud, a.vector ≠ [] ∧ r.text = some (.s a.text)) :=
  ⟨⟨by decide, by decide⟩,
    search_text_presence "v" wVis wAud wMeta 1 wPt (fun _ => [1]) "q"
      (by decide) (by decide)⟩

/-- C6: when the decoder reports the frame rate as 0 (OpenCV's value for an
undeterminable rate), `extract_frames` returns no frames at all, for every
interval and every decode stream — the `MediaUnreadable` condition of the
spec's taxonomy: extraction for the modality yields empty, logged,
non-fatal, and no stride is computed. -/
theorem extract_frames_zero_fps (interval : ℕ) (decoded : List (ℕ × ℚ)) :
    extract_frames 0 interval decoded = [] := by
  unfold extract_frames
  rw [if_pos rfl]

/-- C7: on every outcome of the fallible external calls — clip opening
failure, missing audio track, audio-write failure, transcription failure,
or successful transcription — `extract_audio_segments` leaves no temporary
audio artifact behind: the `finally` clause removes the file on every exit
path, and on the paths that never create it there is nothing to remove. -/
theorem extract_audio_temp_cleanup (o : AudioOutcome) :
    (extract_audio_segments o).tempPersists = false := by
  cases o <;> rfl

/-- C8: `encode_images` and `encode_text` are order- and length-preserving
on well-formed input (the i-th output vector is the model applied to the
i-th input, and indices beyond the input length yield nothing), and an
empty input sequence yields an empty output without invoking the
underlying model, whether or not the model would fail. -/
theorem encode_contract (imodel : ℕ → Vec) (tmodel : String → Vec) (modelFails : Bool)
    (images : List ℕ) (texts : List String) :
    (∀ i : ℕ, (encode_images imodel false images).vectors[i]? = images[i]?.map imodel) ∧
    (∀ i : ℕ, (encode_text tmodel false texts).vectors[i]? = texts[i]?.map tmodel) ∧
    encode_images imodel modelFails [] = { vectors := [], modelInvoked := false } ∧
    encode_text tmodel modelFails [] = { vectors := [], modelInvoked := false } := by
  refine ⟨fun i => ?_, fun i => ?_, rfl, rfl⟩
  · by_cases h : images = []
    · subst h; simp [encode_images]
    · simp [encode_images, h]
  · by_cases h : texts = []
    · subst h; simp [encode_text]
    · simp [encode_text, h]

/-- C9: `index_video` calls `upsert` exactly when at least one point was
constructed, and when the combined point set is empty it logs the distinct
"No valid points to index." line and returns without calling `upsert`. -/
theorem index_video_empty_guard (upsertFails : Bool) (vid : String) (vis : List VisualItem)
    (aud : List AudioItem) (m : Payload) :
    ((index_video upsertFails vid vis aud m).upsertCall.isSome
      ↔ buildPoints vid vis aud m ≠ []) ∧
    ((index_video upsertFails vid vis aud m).log = .noPoints
      ↔ buildPoints vid vis aud m = []) := by
  unfold index_video
  by_cases hb : buildPoints vid vis aud m = []
  · simp [hb]
  · cases upsertFails <;> simp [hb]

/-- C9 witness: with no visual and no audio items the point set is empty,
no upsert call is made, and the "no points" log line is emitted. -/
theorem index_video_empty_guard_witness :
    (((index_video false "v" [] [] []).upsertCall.isSome
        ↔ buildPoints "v" [] [] [] ≠ []) ∧
      ((index_video false "v" [] [] []).log = .noPoints
        ↔ buildPoints "v" [] [] [] = [])) ∧
    (index_video false "v" [] [] []).upsertCall = none :=
  ⟨index_video_empty_guard false "v" [] [] [], by decide⟩

/-- C10: `search` raises `ValueError` exactly when the store holds no
embedding engine (the constructor default `None`), and in that case it
raises before embedding the query and before contacting the index; when an
engine is configured, `search` never raises — every internal failure path
(query embedding failure, index query failure) returns a result list. -/
theorem search_valueerror_iff (hasEngine : Bool) (tmodel : String → Vec)
    (textFails queryFails : Bool) (hits : List Hit) (query_text : String) :
    ((search hasEngine tmodel textFails queryFails hits query_text).result = .error ()
      ↔ hasEngine = false) ∧
    (hasEngine = false →
      (search hasEngine tmodel textFails queryFails hits query_text).encodeCalled = false ∧
      (search hasEngine tmodel textFails queryFails hits query_text).queryCalled = false) ∧
    (hasEngine = true →
      ∃ l, (search hasEngine tmodel textFails queryFails hits query_text).result = .ok l) := by
  cases hasEngine with
  | false => exact ⟨by simp [search], fun _ => ⟨rfl, rfl⟩, fun h => absurd h (by decide)⟩
  | true =>
    refine ⟨?_, fun h => absurd h (by decide), fun _ => ?_⟩
    · unfold search
      by_cases h1 : (encode_text tmodel textFails [query_text]).vectors = []
      · simp [h1]
      · by_cases h2 : queryFails <;> simp [h1, h2]
    · unfold search
      by_cases h1 : (encode_text tmodel textFails [query_text]).vectors = []
      · exact ⟨[], by simp [h1]⟩
      · by_cases h2 : queryFails
        · exact ⟨[], by simp [h1, h2]⟩
        · exact ⟨hits.map formatHit, by simp [h1, h2]⟩

/-- C10 witness: with no engine configured, `search` raises the
`ValueError` without embedding or querying. -/
theorem search_valueerror_iff_witness :
    (((search false (fun _ => [1]) false false [] "q").result = .error ()
        ↔ false = false) ∧
      (false = false →
        (search false (fun _ => [1]) false false [] "q").encodeCalled = false ∧
        (search false (fun _ => [1]) false false [] "q").queryCalled = false) ∧
      (false = true →
        ∃ l, (search false (fun _ => [1]) false false [] "q").result = .ok l)) ∧
    (search false (fun _ => [1]) false false [] "q").encodeCalled = false :=
  ⟨search_valueerror_iff false (fun _ => [1]) false false [] "q", rfl⟩

end NeuroStream
